import Mathlib

/-!
Shallow embedding of the Catharsis API core (src/run.py): the identifier
codec, the document cleaner, the error-envelope builder, the request
pipeline wrapper, the scoped store connection and the CRUD handlers for the
playlists and clips collections.  Python dictionaries are association
structures with unique keys; in-place mutation is rendered as returning the
mutated value; raised exceptions are rendered as Except.error carrying the
exception text.
-/

/-- Modelled from the spec: the identifier codec (bson.objectid.ObjectId) is an
external dependency, not part of this repository.  Per §4.1 the public
identifier is a fixed-length (24-character) hexadecimal token and encoding is
the inverse of decoding, so an internal identifier carries its hexadecimal
string form. -/
structure ObjectId where
  hex : String
deriving DecidableEq

/-- A hexadecimal digit, either case. -/
def isHexChar (c : Char) : Bool :=
  c.isDigit || ('a' ≤ c && c ≤ 'f') || ('A' ≤ c && c ≤ 'F')

/-- A well-formed public identifier: exactly 24 hexadecimal characters. -/
def isValidOidString (s : String) : Bool :=
  s.length == 24 && s.toList.all isHexChar

/-- Modelled from the spec: decoding a public identifier string
(ObjectId(string) in the source); fails on input that is not a well-formed
24-character hexadecimal token. -/
def decodeOid (s : String) : Option ObjectId :=
  if isValidOidString s then some ⟨s⟩ else none

/-- Modelled from the spec: encoding an internal identifier back to its public
string form (str(ObjectId(...)) in the source). -/
def encodeOid (o : ObjectId) : String := o.hex

mutual
/-- A JSON-compatible value as the handlers pass them around: the scalar
shapes, the store-native identifier, lists and string-keyed mappings. -/
inductive Val : Type where
  | null : Val
  | bool : Bool → Val
  | num : Int → Val
  | str : String → Val
  | oid : ObjectId → Val
  | list : ValList → Val
  | dict : ValDict → Val
deriving DecidableEq
/-- The elements of a JSON list. -/
inductive ValList : Type where
  | nil : ValList
  | cons : Val → ValList → ValList
deriving DecidableEq
/-- The entries of a JSON mapping, in insertion order; keys are unique. -/
inductive ValDict : Type where
  | nil : ValDict
  | cons : String → Val → ValDict → ValDict
deriving DecidableEq
end

/-- Key membership of a Python dictionary. -/
def ValDict.hasKey : ValDict → String → Bool
  | .nil, _ => false
  | .cons k _ rest, key => k == key || ValDict.hasKey rest key

/-- Reading a key of a Python dictionary. -/
def ValDict.lookup : ValDict → String → Option Val
  | .nil, _ => none
  | .cons k v rest, key => if k == key then some v else ValDict.lookup rest key

/-- Deleting a key of a Python dictionary (del obj[key]). -/
def ValDict.del : ValDict → String → ValDict
  | .nil, _ => .nil
  | .cons k v rest, key =>
    if k == key then ValDict.del rest key else .cons k v (ValDict.del rest key)

/-- Writing a key of a Python dictionary (obj[key] = v): replace the binding
when the key is present, append it otherwise. -/
def ValDict.set : ValDict → String → Val → ValDict
  | .nil, key, v => .cons key v .nil
  | .cons k w rest, key, v =>
    if k == key then .cons k v rest else .cons k w (ValDict.set rest key v)

/-- From clean_data in src/run.py: the conversion ObjectId(obj["_id"]) applied
to a stored value.  An ObjectId is copied, a valid hexadecimal string is
parsed, anything else raises InvalidId (rendered as none; ObjectId(None)
would generate a fresh identifier, but no stored document carries a null
identifier and no claim depends on that branch). -/
def toObjectId : Option Val → Option ObjectId
  | some (.oid o) => some o
  | some (.str s) => decodeOid s
  | _ => none

mutual
/-- clean_data of src/run.py on one value (the Python procedure mutates in
place; here it returns the mutated value).  A mapping holding the internal
key is renamed: obj["id"] = str(ObjectId(obj["_id"])) followed by
del obj["_id"].  A non-convertible internal value raises. -/
def clean_data : Val → Except String Val
  | .dict es =>
    if es.hasKey "_id" then
      match toObjectId (es.lookup "_id") with
      | some o => .ok (.dict ((es.set "id" (.str (encodeOid o))).del "_id"))
      | none => .error "InvalidId"
    else .ok (.dict es)
  | .list vs =>
    match clean_list vs with
    | .ok ws => .ok (.list ws)
    | .error e => .error e
  | v => .ok v
/-- clean_data of src/run.py over the elements of a list (the for-loop). -/
def clean_list : ValList → Except String ValList
  | .nil => .ok .nil
  | .cons v vs =>
    match clean_data v, clean_list vs with
    | .ok w, .ok ws => .ok (.cons w ws)
    | .error e, _ => .error e
    | .ok _, .error e => .error e
end

/-- The per-request HTTP state the helpers touch: the bottle request object
(whose attribute assignments land in inert extension slots) and the bottle
response object (status code and content type).  A fresh request starts with
response status 200 and no content type set. -/
structure Ctx where
  request_status : Option String := none
  response_status : Nat := 200
  response_content_type : Option String := none
deriving DecidableEq

/-- A fresh per-request state. -/
def ctx0 : Ctx := {}

/-- The uniform error body of src/run.py json_error. -/
def errorEnvelope (code : Nat) (text : String) : Val :=
  .dict (.cons "errors"
    (.list (.cons
      (.dict (.cons "code" (.num (Int.ofNat code))
        (.cons "message" (.str text) .nil))) .nil))
    .nil)

/-- json_error of src/run.py: returns the envelope and, as side effects,
assigns the combined "code text" string to bottle.request.status — an
attribute of the request object, stored as an inert extension slot — and sets
the response content type.  The response status code is not touched. -/
def json_error (code : Nat) (text : String) (ctx : Ctx) : Val × Ctx :=
  (errorEnvelope code text,
   { ctx with
       request_status := some (toString code ++ " " ++ text),
       response_content_type := some "application/json" })

/-- A stored document: the store-native identifier together with the other
fields (which do not themselves use the internal key). -/
structure Doc where
  oid : ObjectId
  fields : ValDict
deriving DecidableEq

/-- A stored document as the store hands it to a handler: a mapping whose
internal key holds the identifier. -/
def Doc.toVal (d : Doc) : Val := .dict (.cons "_id" (.oid d.oid) d.fields)

/-- The sequence a list handler builds from the fetched documents. -/
def ValList.ofDocs : List Doc → ValList
  | [] => .nil
  | d :: ds => .cons d.toVal (ValList.ofDocs ds)

/-- Modelled from the spec: collection.find() fetches all documents of the
collection (the store is an external collaborator, specified at its
interface boundary). -/
def mongoFind (coll : List Doc) : List Doc := coll

/-- Modelled from the spec: collection.find_one on the internal key fetches
the document matching the decoded identifier, if any. -/
def mongoFindOne (coll : List Doc) (i : ObjectId) : Option Doc :=
  coll.find? (fun d => d.oid == i)

/-- Modelled from the spec: collection.insert(doc) adds the document under a
fresh store-chosen identifier. -/
def mongoInsert (coll : List Doc) (freshId : ObjectId) (fields : ValDict) : List Doc :=
  coll ++ [⟨freshId, fields⟩]

/-- Modelled from the spec: collection.update(filter-on-id, doc) is a
full-document replace — every field of the matching document is replaced by
the new body and the identifier is kept; nothing is merged. -/
def mongoUpdate (coll : List Doc) (i : ObjectId) (fields : ValDict) : List Doc :=
  coll.map (fun d => if d.oid == i then ⟨i, fields⟩ else d)

/-- Modelled from the spec: collection.remove(filter-on-id) deletes the
matching documents; removing an absent identifier is not an error. -/
def mongoRemove (coll : List Doc) (i : ObjectId) : List Doc :=
  coll.filter (fun d => !(d.oid == i))

/-- What the body of a `with mongo(name) as collection:` block does: return a
value or raise an exception. -/
inductive BodyOutcome (α : Type) : Type where
  | ret : α → BodyOutcome α
  | exc : String → BodyOutcome α
deriving DecidableEq

/-- The observable run of one use of the mongo context manager: what escapes
the with-block, whether the client request scope was opened
(start_request) and whether it was released (end_request). -/
structure MongoRun (α : Type) where
  outcome : BodyOutcome α
  requestStarted : Bool
  requestEnded : Bool
deriving DecidableEq

/-- mongo of src/run.py, the generator-based context manager.  With the
environment configuration missing it raises DatabaseError before acquiring
anything.  Otherwise it opens the client request scope (start_request),
yields the collection to the body, and calls end_request after the yield.
Python throws a body exception into the generator at the yield point; the
generator has no try/finally around the yield, so on that path the code
after the yield does not run. -/
def mongo {α : Type} (envOk : Bool) (body : BodyOutcome α) : MongoRun α :=
  if envOk then
    match body with
    | .ret a => ⟨.ret a, true, true⟩
    | .exc e => ⟨.exc e, true, false⟩
  else ⟨.exc "DatabaseError", false, false⟩

/-- Python truthiness of a JSON value: None, False, 0, the empty string, the
empty list and the empty mapping are falsy. -/
def Val.falsy : Val → Bool
  | .null => true
  | .bool b => !b
  | .num n => n == 0
  | .str s => s == ""
  | .oid _ => false
  | .list .nil => true
  | .list _ => false
  | .dict .nil => true
  | .dict _ => false

/-- List membership for the Python `in` check. -/
def ValList.containsVal : ValList → Val → Bool
  | .nil, _ => false
  | .cons v vs, x => v == x || ValList.containsVal vs x

/-- Python `"name" in body` for the body shapes a JSON request can carry: key
membership for a mapping, element membership for a list, substring test for a
string.  (On a number, boolean or None Python raises TypeError; that branch
is outside every claim and is rendered as false.) -/
def pyContains (v : Val) (k : String) : Bool :=
  match v with
  | .dict es => es.hasKey k
  | .list vs => vs.containsVal (.str k)
  | .str s => (s.splitOn k).length != 1
  | _ => false

/-- `not bottle.request.json`: true when the request carried no JSON body
(bottle yields None) or a falsy one. -/
def bodyFalsy : Option Val → Bool
  | none => true
  | some v => v.falsy

/-- The fields a mapping body contributes to a stored document.  (The store
raises on a non-mapping body; the handlers below only reach it with a
mapping.) -/
def bodyFields : Val → ValDict
  | .dict es => es
  | _ => .nil

/-- The success status object of the mutating handlers. -/
def statusObj (content : String) : Val :=
  .dict (.cons "status" (.num 200) (.cons "content" (.str content) .nil))

/-- str(ve) for the DatabaseError raised by mongo: its constructor stores the
message on the instance without passing it to Exception, so the string form
is empty. -/
def dbErrorText : String := ""

/-- list_playlists of src/run.py: fetch all documents; an empty result is
replaced by the 404 envelope.  With the environment configuration missing,
the DatabaseError raised by mongo propagates uncaught (the handler has no
try/except). -/
def list_playlists (envOk : Bool) (coll : List Doc) (ctx : Ctx) :
    Except String (Val × Ctx) :=
  if envOk then
    let docs := mongoFind coll
    if docs.isEmpty then
      .ok (json_error 404 "Ok. You have no playlists. Get to work." ctx)
    else .ok (.list (ValList.ofDocs docs), ctx)
  else .error "DatabaseError"

/-- show_playlist of src/run.py: find_one on the decoded identifier; a missing
document (None, falsy) is replaced by the 404 envelope.  A found document
always carries its internal key, hence is never falsy. -/
def show_playlist (i : ObjectId) (envOk : Bool) (coll : List Doc) (ctx : Ctx) :
    Except String (Val × Ctx) :=
  if envOk then
    match mongoFindOne coll i with
    | none =>
      .ok (json_error 404 ("Can\'t find playlist with id " ++ encodeOid i) ctx)
    | some d => .ok (d.toVal, ctx)
  else .error "DatabaseError"

/-- playlists_create of src/run.py.  The store behavior is a parameter:
freshId is the identifier the store would assign, storeExc an exception the
insert (or the connection, whose DatabaseError prints as the empty string)
would raise, caught by the handler's try/except and turned into a 400
envelope.  Validation runs before any store interaction. -/
def playlists_create (body : Option Val) (envOk : Bool) (freshId : ObjectId)
    (storeExc : Option String) (coll : List Doc) (ctx : Ctx) :
    (Val × Ctx) × List Doc :=
  if bodyFalsy body then
    (json_error 400 "Oops. No data received." ctx, coll)
  else
    let b := body.getD .null
    if !pyContains b "name" then
      (json_error 400 "Oops. The required key \"name\" is missing from the data." ctx, coll)
    else
      if envOk then
        match storeExc with
        | some e => (json_error 400 e ctx, coll)
        | none =>
          ((statusObj "Way to go! New playlist has been created.", ctx),
           mongoInsert coll freshId (bodyFields b))
      else (json_error 400 dbErrorText ctx, coll)

/-- update_playlist of src/run.py (the PUT route and its POST /update alias
both invoke it): the same validation as create, then a full-document replace
of the document matching the decoded identifier. -/
def update_playlist (i : ObjectId) (body : Option Val) (envOk : Bool)
    (storeExc : Option String) (coll : List Doc) (ctx : Ctx) :
    (Val × Ctx) × List Doc :=
  if bodyFalsy body then
    (json_error 400 "Oops. No data received." ctx, coll)
  else
    let b := body.getD .null
    if !pyContains b "name" then
      (json_error 400 "Oops. The required key \"name\" is missing from the data." ctx, coll)
    else
      if envOk then
        match storeExc with
        | some e => (json_error 400 e ctx, coll)
        | none =>
          ((statusObj "You did it! Playlist has been updated.", ctx),
           mongoUpdate coll i (bodyFields b))
      else (json_error 400 dbErrorText ctx, coll)

/-- delete_playlist of src/run.py (the DELETE route and its POST /delete
alias): remove whatever matches the decoded identifier and report success;
only a raised exception changes the outcome. -/
def delete_playlist (i : ObjectId) (envOk : Bool) (storeExc : Option String)
    (coll : List Doc) (ctx : Ctx) : (Val × Ctx) × List Doc :=
  if envOk then
    match storeExc with
    | some e => (json_error 400 e ctx, coll)
    | none =>
      ((statusObj "Ok. That playlist is gone. Outta here!", ctx),
       mongoRemove coll i)
  else (json_error 400 dbErrorText ctx, coll)

/-- list_clips of src/run.py: identical to list_playlists up to collection and
message. -/
def list_clips (envOk : Bool) (coll : List Doc) (ctx : Ctx) :
    Except String (Val × Ctx) :=
  if envOk then
    let docs := mongoFind coll
    if docs.isEmpty then
      .ok (json_error 404 "Ok. You have no clips. Get to work." ctx)
    else .ok (.list (ValList.ofDocs docs), ctx)
  else .error "DatabaseError"

/-- show_clip of src/run.py: identical to show_playlist up to collection and
message. -/
def show_clip (i : ObjectId) (envOk : Bool) (coll : List Doc) (ctx : Ctx) :
    Except String (Val × Ctx) :=
  if envOk then
    match mongoFindOne coll i with
    | none =>
      .ok (json_error 404 ("Can\'t find clip with id " ++ encodeOid i) ctx)
    | some d => .ok (d.toVal, ctx)
  else .error "DatabaseError"

/-- clips_create of src/run.py: identical to playlists_create up to collection
and message. -/
def clips_create (body : Option Val) (envOk : Bool) (freshId : ObjectId)
    (storeExc : Option String) (coll : List Doc) (ctx : Ctx) :
    (Val × Ctx) × List Doc :=
  if bodyFalsy body then
    (json_error 400 "Oops. No data received." ctx, coll)
  else
    let b := body.getD .null
    if !pyContains b "name" then
      (json_error 400 "Oops. The required key \"name\" is missing from the data." ctx, coll)
    else
      if envOk then
        match storeExc with
        | some e => (json_error 400 e ctx, coll)
        | none =>
          ((statusObj "Way to go! New clip has been created.", ctx),
           mongoInsert coll freshId (bodyFields b))
      else (json_error 400 dbErrorText ctx, coll)

/-- update_clip of src/run.py: identical to update_playlist up to collection
and message. -/
def update_clip (i : ObjectId) (body : Option Val) (envOk : Bool)
    (storeExc : Option String) (coll : List Doc) (ctx : Ctx) :
    (Val × Ctx) × List Doc :=
  if bodyFalsy body then
    (json_error 400 "Oops. No data received." ctx, coll)
  else
    let b := body.getD .null
    if !pyContains b "name" then
      (json_error 400 "Oops. The required key \"name\" is missing from the data." ctx, coll)
    else
      if envOk then
        match storeExc with
        | some e => (json_error 400 e ctx, coll)
        | none =>
          ((statusObj "You did it! Clip has been updated.", ctx),
           mongoUpdate coll i (bodyFields b))
      else (json_error 400 dbErrorText ctx, coll)

/-- delete_clip of src/run.py: identical to delete_playlist up to collection
and message. -/
def delete_clip (i : ObjectId) (envOk : Bool) (storeExc : Option String)
    (coll : List Doc) (ctx : Ctx) : (Val × Ctx) × List Doc :=
  if envOk then
    match storeExc with
    | some e => (json_error 400 e ctx, coll)
    | none =>
      ((statusObj "Ok. That clip is gone. Outta here!", ctx),
       mongoRemove coll i)
  else (json_error 400 dbErrorText ctx, coll)

/-- The text of the InvalidId exception ObjectId raises on a malformed public
identifier string. -/
def invalidIdMsg (s : String) : String :=
  "InvalidId: " ++ s ++ " is not a valid ObjectId"

/-- make_dry of src/run.py, for a handler taking the path parameter id:
decode the string id into an ObjectId — raising InvalidId on a malformed
token, before the handler runs — then run the handler, clean the returned
data and set the response content type.  The cleaned value is the value
json.dumps serializes (rendering it as a JSON string is injective formatting
and is not modelled at the character level).  Nothing here catches an
exception: a raised InvalidId, DatabaseError or cleaning failure
propagates. -/
def make_dry (fn : ObjectId → Except String (Val × Ctx)) (idStr : String) :
    Except String (Val × Ctx) :=
  match decodeOid idStr with
  | none => .error (invalidIdMsg idStr)
  | some i =>
    match fn i with
    | .error e => .error e
    | .ok (v, ctx) =>
      match clean_data v with
      | .error e => .error e
      | .ok w => .ok (w, { ctx with response_content_type := some "application/json" })

/-- make_dry of src/run.py for a handler without an id path parameter: the
pre-processing step finds no id to decode; cleaning and serialization are as
in make_dry. -/
def make_dry_noid (r : Except String (Val × Ctx)) : Except String (Val × Ctx) :=
  match r with
  | .error e => .error e
  | .ok (v, ctx) =>
    match clean_data v with
    | .error e => .error e
    | .ok w => .ok (w, { ctx with response_content_type := some "application/json" })

/-- error500 of src/run.py: bottle renders an uncaught exception through this
handler; the body is the envelope json_error builds from the exception
output. -/
def error500 (msg : String) (ctx : Ctx) : Val × Ctx :=
  json_error 500 ("Internal Server Error: " ++ msg) ctx

/-- The framework boundary, modelled from the spec (§6): a handler run that
returns normally is sent with the response status the code tracked (never
set by this code, so 200); an uncaught internal failure is sent as HTTP
status 500 with the error500 envelope as body. -/
def dispatch (r : Except String (Val × Ctx)) (ctx : Ctx) : Nat × Val :=
  match r with
  | .ok (v, c) => (c.response_status, v)
  | .error e => (500, (error500 e ctx).1)

/-- GET /playlists/:id as routed: the show handler wrapped by make_dry, sent
through the framework boundary. -/
def dispatchShowPlaylist (idStr : String) (envOk : Bool) (coll : List Doc)
    (ctx : Ctx) : Nat × Val :=
  dispatch (make_dry (fun i => show_playlist i envOk coll ctx) idStr) ctx

/-- No internal identifier key at the top level of a mapping (other shapes
carry no keys). -/
def Val.topDictClean : Val → Bool
  | .dict es => !es.hasKey "_id"
  | _ => true

/-- Every element of a list is free of a top-level internal identifier key. -/
def ValList.allTopDictClean : ValList → Bool
  | .nil => true
  | .cons v vs => v.topDictClean && ValList.allTopDictClean vs

/-- The claim's top-level shape check: no internal key at the top level, nor
in any top-level list element. -/
def topClean : Val → Bool
  | .list vs => vs.allTopDictClean
  | v => v.topDictClean

mutual
/-- A value is cleaned everywhere the cleaner looks: mappings carry no
internal key and list elements are recursively cleaned. -/
def Val.isCleaned : Val → Bool
  | .dict es => !es.hasKey "_id"
  | .list vs => ValList.isCleanedList vs
  | _ => true
/-- Elementwise cleanliness of a list. -/
def ValList.isCleanedList : ValList → Bool
  | .nil => true
  | .cons v vs => v.isCleaned && ValList.isCleanedList vs
end

/-- Pointwise relation between the elements of two lists. -/
def ValList.Forall2 (P : Val → Val → Prop) : ValList → ValList → Prop
  | .nil, .nil => True
  | .cons v vs, .cons w ws => P v w ∧ ValList.Forall2 P vs ws
  | _, _ => False

theorem ValDict.hasKey_del_self : ∀ (es : ValDict) (k : String),
    (es.del k).hasKey k = false
  | .nil, _ => rfl
  | .cons k' v rest, k => by
    by_cases h : k' = k
    · simp [ValDict.del, h, ValDict.hasKey_del_self rest k]
    · simp [ValDict.del, ValDict.hasKey, h, ValDict.hasKey_del_self rest k]

theorem ValDict.hasKey_del_ne : ∀ (es : ValDict) (k k' : String), k' ≠ k →
    (es.del k).hasKey k' = es.hasKey k'
  | .nil, _, _, _ => rfl
  | .cons k0 v rest, k, k', h => by
    by_cases h0 : k0 = k
    · subst h0
      simp [ValDict.del, ValDict.hasKey, ValDict.hasKey_del_ne rest k0 k' h,
        (by simpa using h.symm : ¬ k0 = k')]
    · simp [ValDict.del, ValDict.hasKey, h0, ValDict.hasKey_del_ne rest k k' h]

theorem ValDict.lookup_del_ne : ∀ (es : ValDict) (k k' : String), k' ≠ k →
    (es.del k).lookup k' = es.lookup k'
  | .nil, _, _, _ => rfl
  | .cons k0 v rest, k, k', h => by
    by_cases h0 : k0 = k
    · subst h0
      simp [ValDict.del, ValDict.lookup, ValDict.lookup_del_ne rest k0 k' h,
        (by simpa using h.symm : ¬ k0 = k')]
    · have hdel : (ValDict.cons k0 v rest).del k = .cons k0 v (rest.del k) := by
        simp [ValDict.del, h0]
      rw [hdel]
      by_cases h1 : k0 = k'
      · simp [ValDict.lookup, h1]
      · simp [ValDict.lookup, h1, ValDict.lookup_del_ne rest k k' h]

theorem ValDict.lookup_set_self : ∀ (es : ValDict) (k : String) (v : Val),
    (es.set k v).lookup k = some v
  | .nil, k, v => by simp [ValDict.set, ValDict.lookup]
  | .cons k0 w rest, k, v => by
    by_cases h0 : k0 = k
    · simp [ValDict.set, ValDict.lookup, h0]
    · simp [ValDict.set, ValDict.lookup, h0, ValDict.lookup_set_self rest k v]

theorem ValDict.lookup_set_ne : ∀ (es : ValDict) (k k' : String) (v : Val), k' ≠ k →
    (es.set k v).lookup k' = es.lookup k'
  | .nil, k, k', v, h => by
    simp [ValDict.set, ValDict.lookup, (Ne.symm h : ¬ k = k')]
  | .cons k0 w rest, k, k', v, h => by
    by_cases h0 : k0 = k
    · subst h0
      simp [ValDict.set, ValDict.lookup, (Ne.symm h : ¬ k0 = k')]
    · have hset : (ValDict.cons k0 w rest).set k v = .cons k0 w (rest.set k v) := by
        simp [ValDict.set, h0]
      rw [hset]
      by_cases h1 : k0 = k'
      · simp [ValDict.lookup, h1]
      · simp [ValDict.lookup, h1, ValDict.lookup_set_ne rest k k' v h]

theorem Val.topDictClean_of_isCleaned : ∀ (v : Val),
    v.isCleaned = true → v.topDictClean = true
  | .null, _ => rfl
  | .bool _, _ => rfl
  | .num _, _ => rfl
  | .str _, _ => rfl
  | .oid _, _ => rfl
  | .list _, _ => rfl
  | .dict es, h => by simpa [Val.isCleaned, Val.topDictClean] using h

theorem ValList.allTop_of_isCleanedList : ∀ (vs : ValList),
    vs.isCleanedList = true → vs.allTopDictClean = true
  | .nil, _ => rfl
  | .cons v vs, h => by
    have h' : v.isCleaned = true ∧ vs.isCleanedList = true := by
      simpa [ValList.isCleanedList] using h
    simp [ValList.allTopDictClean, Val.topDictClean_of_isCleaned v h'.1,
      ValList.allTop_of_isCleanedList vs h'.2]

theorem topClean_of_isCleaned : ∀ (v : Val), v.isCleaned = true → topClean v = true
  | .null, _ => rfl
  | .bool _, _ => rfl
  | .num _, _ => rfl
  | .str _, _ => rfl
  | .oid _, _ => rfl
  | .list vs, h => by
    simpa [topClean] using
      ValList.allTop_of_isCleanedList vs (by simpa [Val.isCleaned] using h)
  | .dict es, h => by simpa [topClean, Val.topDictClean, Val.isCleaned] using h

mutual
theorem clean_data_isCleaned : ∀ (v w : Val), clean_data v = .ok w → w.isCleaned = true
  | .dict es, w, h => by
    by_cases hk : es.hasKey "_id" = true
    · cases ho : toObjectId (es.lookup "_id") with
      | none => simp [clean_data, hk, ho] at h
      | some o =>
        simp [clean_data, hk, ho] at h
        subst h
        simp [Val.isCleaned, ValDict.hasKey_del_self]
    · simp [clean_data, hk] at h
      subst h
      simp [Val.isCleaned, hk]
  | .list vs, w, h => by
    cases hc : clean_list vs with
    | error e => simp [clean_data, hc] at h
    | ok ws =>
      simp [clean_data, hc] at h
      subst h
      simpa [Val.isCleaned] using clean_list_isCleaned vs ws hc
  | .null, w, h => by simp [clean_data] at h; subst h; rfl
  | .bool b, w, h => by simp [clean_data] at h; subst h; rfl
  | .num n, w, h => by simp [clean_data] at h; subst h; rfl
  | .str s, w, h => by simp [clean_data] at h; subst h; rfl
  | .oid o, w, h => by simp [clean_data] at h; subst h; rfl
theorem clean_list_isCleaned : ∀ (vs ws : ValList),
    clean_list vs = .ok ws → ws.isCleanedList = true
  | .nil, ws, h => by simp [clean_list] at h; subst h; rfl
  | .cons v vs, ws, h => by
    cases hv : clean_data v with
    | error e => simp [clean_list, hv] at h
    | ok w =>
      cases hvs : clean_list vs with
      | error e => simp [clean_list, hv, hvs] at h
      | ok ws' =>
        simp [clean_list, hv, hvs] at h
        subst h
        simp [ValList.isCleanedList, clean_data_isCleaned v w hv,
          clean_list_isCleaned vs ws' hvs]
end

mutual
theorem isCleaned_clean_data : ∀ (v : Val), v.isCleaned = true → clean_data v = .ok v
  | .dict es, h => by
    have hk : es.hasKey "_id" = false := by simpa [Val.isCleaned] using h
    simp [clean_data, hk]
  | .list vs, h => by
    simp [clean_data,
      isCleanedList_clean_list vs (by simpa [Val.isCleaned] using h)]
  | .null, _ => rfl
  | .bool _, _ => rfl
  | .num _, _ => rfl
  | .str _, _ => rfl
  | .oid _, _ => rfl
theorem isCleanedList_clean_list : ∀ (vs : ValList),
    vs.isCleanedList = true → clean_list vs = .ok vs
  | .nil, _ => rfl
  | .cons v vs, h => by
    have h' : v.isCleaned = true ∧ vs.isCleanedList = true := by
      simpa [ValList.isCleanedList] using h
    simp [clean_list, isCleaned_clean_data v h'.1, isCleanedList_clean_list vs h'.2]
end

theorem Val.falsy_dict_of_hasKey (es : ValDict) (k : String)
    (h : es.hasKey k = true) : Val.falsy (.dict es) = false := by
  cases es with
  | nil => simp [ValDict.hasKey] at h
  | cons k0 v rest => rfl

theorem clean_list_forall2 : ∀ (vs ws : ValList), clean_list vs = .ok ws →
    ValList.Forall2 (fun v w => clean_data v = .ok w) vs ws
  | .nil, ws, h => by simp [clean_list] at h; subst h; trivial
  | .cons v vs, ws, h => by
    cases hv : clean_data v with
    | error e => simp [clean_list, hv] at h
    | ok w =>
      cases hvs : clean_list vs with
      | error e => simp [clean_list, hv, hvs] at h
      | ok ws' =>
        simp [clean_list, hv, hvs] at h
        subst h
        exact ⟨hv, clean_list_forall2 vs ws' hvs⟩

/-- Claim C9: for every well-formed 24-character hexadecimal public
identifier string, decoding it to the internal identifier and encoding the
result yields the original string — the codec round-trip law. -/
theorem c9_codec_roundtrip (s : String) (h : isValidOidString s = true) :
    ∃ o, decodeOid s = some o ∧ encodeOid o = s :=
  ⟨⟨s⟩, by simp [decodeOid, h], rfl⟩

/-- Claim C9, witness at a concrete well-formed identifier. -/
theorem c9_codec_roundtrip_witness :
    ∃ o, decodeOid "5160d25fe14fe32a8d00065b" = some o ∧
      encodeOid o = "5160d25fe14fe32a8d00065b" :=
  c9_codec_roundtrip "5160d25fe14fe32a8d00065b" (by decide)

/-- Claim C4 (evaluating the defect): json_error does build the documented
envelope with the given code and message, and does format the combined
"code message" status description — but it assigns that string to the request
object (bottle.request.status, an inert extension attribute), leaving the
response status code untouched, so the outward-visible status line never
combines the code and the message; evaluated concretely at a failing
input. -/
theorem c4_json_error_sets_request_not_response :
    (∀ code text ctx,
      (json_error code text ctx).1 = errorEnvelope code text ∧
      (json_error code text ctx).2.request_status
        = some (toString code ++ " " ++ text) ∧
      (json_error code text ctx).2.response_status = ctx.response_status) ∧
    (json_error 400 "Oops. No data received." ctx0).2.response_status = 200 ∧
    (json_error 400 "Oops. No data received." ctx0).2.request_status
      = some "400 Oops. No data received." :=
  ⟨fun _ _ _ => ⟨rfl, rfl, rfl⟩, rfl, rfl⟩

/-- Claim C3, counterexample: with the configuration present and a body that
throws, the client request scope is opened but end_request is never reached —
an exit path on which the connection-level resource is not released,
contradicting release on every exit path. -/
theorem c3_counterexample :
    (mongo true (BodyOutcome.exc "insert failed") : MongoRun Nat).requestStarted
      = true ∧
    (mongo true (BodyOutcome.exc "insert failed") : MongoRun Nat).requestEnded
      = false :=
  ⟨rfl, rfl⟩

/-- Claim C3 as amended: with the configuration present the request scope is
opened before the body runs and is released on every normal return of the
body (a returned error envelope is such a return); on an exception thrown by
the body it is not released — the generator has no try/finally, so the code
after the yield is skipped. -/
theorem c3_scope_release {α : Type} (b : BodyOutcome α) :
    (mongo true b).requestStarted = true ∧
    (∀ a, b = .ret a → (mongo true b).requestEnded = true) ∧
    (∀ e, b = .exc e → (mongo true b).requestEnded = false) := by
  cases b with
  | ret a =>
    refine ⟨rfl, fun _ _ => rfl, fun _ h => ?_⟩
    exact nomatch h
  | exc e =>
    refine ⟨rfl, fun _ h => ?_, fun _ _ => rfl⟩
    exact nomatch h

/-- Claim C3, witness: release does happen on a concrete normal return. -/
theorem c3_scope_release_witness :
    (mongo true (BodyOutcome.ret (0 : Nat))).requestEnded = true :=
  (c3_scope_release (BodyOutcome.ret (0 : Nat))).2.1 0 rfl

/-- Claim C6: a list request on an empty collection returns the 404 error
envelope, never an empty 200 array; on a non-empty collection it returns the
full fetched sequence — for playlists and for clips. -/
theorem c6_list_empty_is_404 :
    (∀ ctx, list_playlists true [] ctx
       = .ok (json_error 404 "Ok. You have no playlists. Get to work." ctx)) ∧
    (∀ coll ctx, coll ≠ ([] : List Doc) →
       list_playlists true coll ctx = .ok (.list (ValList.ofDocs coll), ctx)) ∧
    (∀ ctx, list_clips true [] ctx
       = .ok (json_error 404 "Ok. You have no clips. Get to work." ctx)) ∧
    (∀ coll ctx, coll ≠ ([] : List Doc) →
       list_clips true coll ctx = .ok (.list (ValList.ofDocs coll), ctx)) := by
  refine ⟨fun ctx => rfl, fun coll ctx h => ?_, fun ctx => rfl, fun coll ctx h => ?_⟩ <;>
  · cases coll with
    | nil => exact absurd rfl h
    | cons d ds => rfl

/-- Claim C6, witness: a concrete singleton collection is returned in full. -/
theorem c6_list_empty_is_404_witness :
    list_playlists true [⟨⟨"5160d25fe14fe32a8d00065b"⟩, .nil⟩] ctx0
      = .ok (.list (ValList.ofDocs [⟨⟨"5160d25fe14fe32a8d00065b"⟩, .nil⟩]), ctx0) :=
  c6_list_empty_is_404.2.1 [⟨⟨"5160d25fe14fe32a8d00065b"⟩, .nil⟩] ctx0
    (List.cons_ne_nil _ _)

/-- Claim C8: for every delete with a well-formed identifier, if the remove
call does not raise, the handler returns the fixed 200 status object — the
same value whatever the collection holds, so a nonexistent identifier is not
distinguished from an existing one; a raised store exception becomes the 400
envelope carrying the exception text.  Both collections behave alike. -/
theorem c8_delete_uniform_success :
    (∀ i coll ctx, delete_playlist i true none coll ctx
       = ((statusObj "Ok. That playlist is gone. Outta here!", ctx),
          mongoRemove coll i)) ∧
    (∀ i i' coll coll' ctx,
       (delete_playlist i true none coll ctx).1
         = (delete_playlist i' true none coll' ctx).1) ∧
    (∀ i e coll ctx, delete_playlist i true (some e) coll ctx
       = (json_error 400 e ctx, coll)) ∧
    (∀ i coll ctx, delete_clip i true none coll ctx
       = ((statusObj "Ok. That clip is gone. Outta here!", ctx),
          mongoRemove coll i)) ∧
    (∀ i i' coll coll' ctx,
       (delete_clip i true none coll ctx).1
         = (delete_clip i' true none coll' ctx).1) ∧
    (∀ i e coll ctx, delete_clip i true (some e) coll ctx
       = (json_error 400 e ctx, coll)) :=
  ⟨fun _ _ _ => rfl, fun _ _ _ _ _ => rfl, fun _ _ _ _ => rfl,
   fun _ _ _ => rfl, fun _ _ _ _ _ => rfl, fun _ _ _ _ => rfl⟩

/-- Claim C1, counterexample: GET /playlists/not-a-valid-id is answered with
HTTP status 500 and the 500 error envelope — the identifier decode raises
before the handler runs, nothing catches it, and the framework renders it
through error500.  The claim says the response is a 400/404 envelope and
never a 500. -/
theorem c1_counterexample :
    dispatchShowPlaylist "not-a-valid-id" true [] ctx0
      = (500, errorEnvelope 500
          ("Internal Server Error: " ++ invalidIdMsg "not-a-valid-id")) := rfl

/-- Claim C1 as amended: on a malformed public identifier the pipeline
wrapper does short-circuit before the inner handler — the wrapped result is
the same raised InvalidId whatever the handler is — but the failure
propagates as an uncaught exception, so the response is the 500 error
envelope rendered by error500, not a 400/404 client-error envelope. -/
theorem c1_invalid_id_short_circuits (idStr : String)
    (h : decodeOid idStr = none) :
    (∀ fn, make_dry fn idStr = .error (invalidIdMsg idStr)) ∧
    (∀ envOk coll ctx, dispatchShowPlaylist idStr envOk coll ctx
       = (500, errorEnvelope 500
           ("Internal Server Error: " ++ invalidIdMsg idStr))) := by
  constructor
  · intro fn
    simp [make_dry, h]
  · intro envOk coll ctx
    simp [dispatchShowPlaylist, dispatch, make_dry, h, error500, json_error]

/-- Claim C1, witness: the short-circuit at a concrete malformed
identifier. -/
theorem c1_invalid_id_short_circuits_witness :
    make_dry (fun i => show_playlist i true [] ctx0) "not-a-valid-id"
      = .error (invalidIdMsg "not-a-valid-id") :=
  (c1_invalid_id_short_circuits "not-a-valid-id" (by decide)).1 _

/-- Claim C5: a missing or empty body yields the 400 no-data envelope, a
non-empty mapping body lacking the key "name" yields the 400 envelope naming
the missing key, and in both cases the collection is left untouched whatever
the store parameters — equivalently, the store is only reached when the body
is present and contains "name" (shown for create and update). -/
theorem c5_validation_before_store :
    (∀ body envOk freshId exc coll ctx, bodyFalsy body = true →
       playlists_create body envOk freshId exc coll ctx
         = (json_error 400 "Oops. No data received." ctx, coll)) ∧
    (∀ i body envOk exc coll ctx, bodyFalsy body = true →
       update_playlist i body envOk exc coll ctx
         = (json_error 400 "Oops. No data received." ctx, coll)) ∧
    (∀ es envOk freshId exc coll ctx,
       Val.falsy (.dict es) = false → ValDict.hasKey es "name" = false →
       playlists_create (some (.dict es)) envOk freshId exc coll ctx
         = (json_error 400
             "Oops. The required key \"name\" is missing from the data." ctx,
            coll)) ∧
    (∀ i es envOk exc coll ctx,
       Val.falsy (.dict es) = false → ValDict.hasKey es "name" = false →
       update_playlist i (some (.dict es)) envOk exc coll ctx
         = (json_error 400
             "Oops. The required key \"name\" is missing from the data." ctx,
            coll)) ∧
    (∀ body envOk freshId exc coll ctx,
       (playlists_create body envOk freshId exc coll ctx).2 ≠ coll →
       bodyFalsy body = false ∧ pyContains (body.getD .null) "name" = true) ∧
    (∀ i body envOk exc coll ctx,
       (update_playlist i body envOk exc coll ctx).2 ≠ coll →
       bodyFalsy body = false ∧ pyContains (body.getD .null) "name" = true) := by
  refine ⟨?_, ?_, ?_, ?_, ?_, ?_⟩
  · intro body envOk freshId exc coll ctx h
    simp [playlists_create, h]
  · intro i body envOk exc coll ctx h
    simp [update_playlist, h]
  · intro es envOk freshId exc coll ctx h1 h2
    simp [playlists_create, bodyFalsy, h1, pyContains, h2]
  · intro i es envOk exc coll ctx h1 h2
    simp [update_playlist, bodyFalsy, h1, pyContains, h2]
  · intro body envOk freshId exc coll ctx h
    by_cases hb : bodyFalsy body = true
    · exact absurd (by simp [playlists_create, hb]) h
    · by_cases hn : pyContains (body.getD .null) "name" = true
      · exact ⟨by simpa using hb, hn⟩
      · exact absurd (by simp [playlists_create, hb, hn]) h
  · intro i body envOk exc coll ctx h
    by_cases hb : bodyFalsy body = true
    · exact absurd (by simp [update_playlist, hb]) h
    · by_cases hn : pyContains (body.getD .null) "name" = true
      · exact ⟨by simpa using hb, hn⟩
      · exact absurd (by simp [update_playlist, hb, hn]) h

/-- Claim C5, witness: a concrete create with no body. -/
theorem c5_validation_before_store_witness :
    playlists_create none true ⟨"5160d25fe14fe32a8d00065b"⟩ none [] ctx0
      = (json_error 400 "Oops. No data received." ctx0, []) :=
  c5_validation_before_store.1 none true ⟨"5160d25fe14fe32a8d00065b"⟩ none [] ctx0 rfl

/-- Claim C7: an update whose body contains "name" replaces the stored
document matching the decoded identifier in full — after the call every
document carrying that identifier has exactly the body's fields, old fields
not present in the body are gone, other documents are untouched — and the
handler returns the 200 updated-status object. -/
theorem c7_update_full_replace (i : ObjectId) (es : ValDict) (coll : List Doc)
    (ctx : Ctx) (h : ValDict.hasKey es "name" = true) :
    update_playlist i (some (.dict es)) true none coll ctx
      = ((statusObj "You did it! Playlist has been updated.", ctx),
         mongoUpdate coll i es) ∧
    (∀ d, d ∈ mongoUpdate coll i es → d.oid = i → d.fields = es) ∧
    (∀ d, d ∈ coll → d.oid ≠ i → d ∈ mongoUpdate coll i es) := by
  refine ⟨?_, ?_, ?_⟩
  · simp [update_playlist, bodyFalsy, Val.falsy_dict_of_hasKey es "name" h,
      pyContains, h, bodyFields]
  · intro d hd hoid
    simp only [mongoUpdate, List.mem_map] at hd
    obtain ⟨d0, hd0, hfd⟩ := hd
    by_cases h0 : d0.oid = i
    · simp [h0] at hfd
      exact hfd ▸ rfl
    · simp [h0] at hfd
      exact absurd (hfd ▸ hoid) h0
  · intro d hd hne
    simp only [mongoUpdate, List.mem_map]
    exact ⟨d, hd, by simp [hne]⟩

/-- Claim C7, witness: a concrete full replace — the old field "genre" is
gone, the fields are exactly the new body. -/
theorem c7_update_full_replace_witness :
    update_playlist ⟨"5160d25fe14fe32a8d00065b"⟩
      (some (.dict (.cons "name" (.str "fight scenes")
        (.cons "qty" (.num 0) (.cons "duration" (.num 0) .nil))))) true none
      [⟨⟨"5160d25fe14fe32a8d00065b"⟩,
        .cons "name" (.str "old") (.cons "genre" (.str "action") .nil)⟩] ctx0
      = ((statusObj "You did it! Playlist has been updated.", ctx0),
         [⟨⟨"5160d25fe14fe32a8d00065b"⟩,
           .cons "name" (.str "fight scenes")
             (.cons "qty" (.num 0) (.cons "duration" (.num 0) .nil))⟩]) := by
  have h := (c7_update_full_replace ⟨"5160d25fe14fe32a8d00065b"⟩
    (.cons "name" (.str "fight scenes")
      (.cons "qty" (.num 0) (.cons "duration" (.num 0) .nil)))
    [⟨⟨"5160d25fe14fe32a8d00065b"⟩,
      .cons "name" (.str "old") (.cons "genre" (.str "action") .nil)⟩] ctx0
    (by decide)).1
  simpa [mongoUpdate] using h

/-- Claim C2: whatever payload a wrapped handler returns, the value the
pipeline serializes has no internal identifier key at the top level or in any
top-level list element; a mapping that had the internal key instead carries
the public key "id" holding the encoded identifier string, the internal key
is gone and every other key is untouched — a rename, not a duplication; and
cleaning a list is exactly elementwise cleaning. -/
theorem c2_no_internal_id_escapes :
    (∀ fn idStr w ctx, make_dry fn idStr = .ok (w, ctx) → topClean w = true) ∧
    (∀ es w, clean_data (.dict es) = .ok w → es.hasKey "_id" = true →
       ∃ o es', toObjectId (es.lookup "_id") = some o ∧ w = .dict es' ∧
         es'.hasKey "_id" = false ∧
         es'.lookup "id" = some (.str (encodeOid o)) ∧
         (∀ k, k ≠ "id" → k ≠ "_id" → es'.lookup k = es.lookup k)) ∧
    (∀ vs ws, clean_list vs = .ok ws →
       ValList.Forall2 (fun v w => clean_data v = .ok w) vs ws) := by
  refine ⟨?_, ?_, clean_list_forall2⟩
  · intro fn idStr w ctx h
    cases hd : decodeOid idStr with
    | none => simp [make_dry, hd] at h
    | some i =>
      cases hf : fn i with
      | error e => simp [make_dry, hd, hf] at h
      | ok p =>
        obtain ⟨v, c⟩ := p
        cases hc : clean_data v with
        | error e => simp [make_dry, hd, hf, hc] at h
        | ok w' =>
          simp [make_dry, hd, hf, hc] at h
          obtain ⟨hw, -⟩ := h
          exact hw ▸ topClean_of_isCleaned w' (clean_data_isCleaned v w' hc)
  · intro es w h hk
    cases ho : toObjectId (es.lookup "_id") with
    | none => simp [clean_data, hk, ho] at h
    | some o =>
      simp [clean_data, hk, ho] at h
      refine ⟨o, (es.set "id" (.str (encodeOid o))).del "_id", rfl, h.symm,
        ValDict.hasKey_del_self _ _, ?_, ?_⟩
      · rw [ValDict.lookup_del_ne _ _ _ (by decide),
          ValDict.lookup_set_self]
      · intro k hki hkid
        rw [ValDict.lookup_del_ne _ _ _ hkid,
          ValDict.lookup_set_ne _ _ _ _ hki]

/-- Claim C2, witness: a wrapped handler returning a document with the
internal key yields a serialized value passing the top-level check. -/
theorem c2_no_internal_id_escapes_witness :
    topClean (.dict (.cons "name" (.str "x")
      (.cons "id" (.str "5160d25fe14fe32a8d00065b") .nil))) = true :=
  c2_no_internal_id_escapes.1
    (fun _ => .ok (.dict (.cons "_id" (.oid ⟨"5160d25fe14fe32a8d00065b"⟩)
      (.cons "name" (.str "x") .nil)), ctx0))
    "5160d25fe14fe32a8d00065b"
    (.dict (.cons "name" (.str "x")
      (.cons "id" (.str "5160d25fe14fe32a8d00065b") .nil)))
    ⟨none, 200, some "application/json"⟩ rfl

/-- Claim C10: the cleaning transform is idempotent — a value that is already
cleaned (a mapping without the internal key, or a list of such values) is
left unchanged, and cleaning any cleaned output again returns it as is, so
clean(clean(v)) = clean(v) on every payload cleaning accepts. -/
theorem c10_clean_idempotent :
    (∀ v, Val.isCleaned v = true → clean_data v = .ok v) ∧
    (∀ v w, clean_data v = .ok w → clean_data w = .ok w) :=
  ⟨fun v h => isCleaned_clean_data v h,
   fun v w h => isCleaned_clean_data w (clean_data_isCleaned v w h)⟩

/-- Claim C10, witness: cleaning a concrete cleaned output changes
nothing. -/
theorem c10_clean_idempotent_witness :
    clean_data (.dict (.cons "id" (.str "5160d25fe14fe32a8d00065b") .nil))
      = .ok (.dict (.cons "id" (.str "5160d25fe14fe32a8d00065b") .nil)) :=
  c10_clean_idempotent.2
    (.dict (.cons "_id" (.oid ⟨"5160d25fe14fe32a8d00065b"⟩) .nil))
    (.dict (.cons "id" (.str "5160d25fe14fe32a8d00065b") .nil)) rfl

example :
    clean_data (.dict (.cons "_id" (.oid ⟨"5160d25fe14fe32a8d00065b"⟩)
        (.cons "name" (.str "x") .nil)))
      = .ok (.dict (.cons "name" (.str "x")
          (.cons "id" (.str "5160d25fe14fe32a8d00065b") .nil))) := rfl
